import Mathlib

/-!
Verification development for the oricon-creative-checker repository.

We shallowly embed the core modules `src/core/openai_checker.py` and
`src/core/file_processor.py` (plus the result-record accessors of
`src/app.py`).  Python strings are modelled as `List Char` (Python indexes
by code point), Python `str.find` / slicing / `strip` are modelled as
executable functions with the same semantics, and JSON values are modelled
by the inductive type `Json`.  `json.loads` is an external library call;
the embedding takes it as a parameter `loads : Chars → Option Json`
(`none` models a raised `json.JSONDecodeError`, `some j` a successful
decode to the value `j`), so every theorem quantifies over the decoder.
The remote OpenAI call is likewise a collaborator; its outcome is a
parameter `Except Chars Chars` (error = raised exception, stringified).
-/

/-- A Python string, indexed by code point. -/
abbrev Chars := List Char

/-- Literal Python string. -/
def pstr (s : String) : Chars := s.toList

/-- `isPrefixChars sub s` : does `s` start with `sub`? -/
def isPrefixChars : Chars → Chars → Bool
  | [], _ => true
  | _ :: _, [] => false
  | a :: as, b :: bs => if a = b then isPrefixChars as bs else false

/-- Scanning loop for Python `str.find`: try indices `i, i+1, ...`
(`fuel` bounds the scan), returning the first index where `sub` occurs,
else `-1`. -/
def pyFindLoop (s sub : Chars) : Nat → Nat → Int
  | _, 0 => -1
  | i, Nat.succ fuel =>
    if isPrefixChars sub (s.drop i) then (i : Int) else pyFindLoop s sub (i + 1) fuel

/-- Python `s.find(sub, start)`: lowest index `≥ start` at which `sub`
occurs in `s`, else `-1`. -/
def pyFind (s sub : Chars) (start : Nat) : Int :=
  pyFindLoop s sub start (s.length + 1 - start)

/-- Python `sub in s` (substring containment). -/
def pyContains (s sub : Chars) : Bool :=
  if pyFind s sub 0 = -1 then false else true

/-- Python `s.strip()` (ASCII whitespace suffices for this program). -/
def pyStrip (s : Chars) : Chars :=
  ((s.dropWhile Char.isWhitespace).reverse.dropWhile Char.isWhitespace).reverse

/-- Normalized end index of the Python slice `s[a:b]`:
negative `b` counts from the end (clamped at 0), non-negative `b` is
clamped at the length. -/
def pySliceEnd (len : Nat) (b : Int) : Nat :=
  if b < 0 then (b + len).toNat else min b.toNat len

/-- Python slice `s[a:b]` with non-negative start `a` and signed end `b`. -/
def pySlice (s : Chars) (a : Nat) (b : Int) : Chars :=
  (s.take (pySliceEnd s.length b)).drop a

/-- Python `s.lower()` (the extensions handled here are ASCII). -/
def pyLower (s : Chars) : Chars := s.map Char.toLower

/-- Index of the last `'.'` in the name, scanning with a running best. -/
def lastDotIdx : Chars → Nat → Option Nat → Option Nat
  | [], _, best => best
  | c :: rest, i, best => lastDotIdx rest (i + 1) (if c = '.' then some i else best)

/-- `pathlib.Path(name).suffix` for a plain file name (Streamlit upload
names have no directory separator): the part from the last dot, provided
that dot is neither the first nor the last character; else `""`. -/
def pathSuffix (name : Chars) : Chars :=
  match lastDotIdx name 0 none with
  | some i => if 0 < i ∧ i < name.length - 1 then name.drop i else []
  | none => []

/-- JSON values as produced by `json.loads` (numeric fidelity beyond
integers is irrelevant to every property checked here). -/
inductive Json where
  | null : Json
  | bool : Bool → Json
  | num : Int → Json
  | str : Chars → Json
  | arr : List Json → Json
  | obj : List (Chars × Json) → Json

/-- First-match key lookup in an association list (Python dicts decoded
from JSON have unique keys). -/
def pyLookup {α : Type} (k : Chars) : List (Chars × α) → Option α
  | [] => none
  | p :: rest => if p.1 = k then some p.2 else pyLookup k rest

/-- Does the association list carry the key? -/
def hasAnyKey {α : Type} (k : Chars) : List (Chars × α) → Bool
  | [] => false
  | p :: rest => if p.1 = k then true else hasAnyKey k rest

/-- Python `d[k] = v` on a dict: update in place when the key exists
(position preserved), else append in insertion order. -/
def pySetKey (fields : List (Chars × Json)) (k : Chars) (v : Json) : List (Chars × Json) :=
  if hasAnyKey k fields then
    fields.map (fun p => if p.1 = k then (k, v) else p)
  else fields ++ [(k, v)]

/-- Python `result[k] = v` on an arbitrary decoded value: succeeds on a
dict, raises `TypeError` otherwise (the error payload is the offending
value). -/
def pySetItem (j : Json) (k : Chars) (v : Json) : Except Json Json :=
  match j with
  | .obj fields => .ok (.obj (pySetKey fields k v))
  | other => .error other

/-- Read a key of a JSON object (none when absent or not an object). -/
def jGet (j : Json) (k : Chars) : Option Json :=
  match j with
  | .obj fields => pyLookup k fields
  | _ => none

/-- Key presence in a record. -/
def hasKey (j : Json) (k : Chars) : Bool := (jGet j k).isSome

/-- Python `d.get(k, default)`. -/
def pyGetD (j : Json) (k : Chars) (d : Json) : Json := (jGet j k).getD d

/-- CPython type name of a decoded value, as used in `TypeError` text. -/
def pyTypeName : Json → Chars
  | .null => pstr "NoneType"
  | .bool _ => pstr "bool"
  | .num _ => pstr "int"
  | .str _ => pstr "str"
  | .arr _ => pstr "list"
  | .obj _ => pstr "dict"

/-- `str(e)` of the `TypeError` raised by `result["file_name"] = ...`
when `result` is not a dict. -/
def typeErrMsg (j : Json) : Chars :=
  match j with
  | .arr _ => pstr "list indices must be integers or slices, not str"
  | j => pstr "'" ++ pyTypeName j ++ pstr "' object does not support item assignment"

/-! ### Record field keys and literal strings of `openai_checker.py` -/

def kFileName : Chars := pstr "file_name"
def kCompany : Chars := pstr "company_name"
def kJudgment : Chars := pstr "judgment"
def kIssues : Chars := pstr "issues"
def kDetected : Chars := pstr "detected_elements"
def kNotes : Chars := pstr "notes"
def kRaw : Chars := pstr "raw_response"
def kSeverity : Chars := pstr "severity"
def kCategory : Chars := pstr "category"
def kDescription : Chars := pstr "description"
def kYear : Chars := pstr "year"
def kIssuer : Chars := pstr "issuer"
def kRanking : Chars := pstr "ranking_name"
def kPosition : Chars := pstr "position"
def kTrademark : Chars := pstr "trademark_symbol"

/-- Judgment label "no problem" (Clean). -/
def sNoProblem : Chars := pstr "問題なし"
/-- Judgment label "has problem" (Violation). -/
def sHasProblem : Chars := pstr "問題あり"
/-- Marker "prohibited". -/
def sProhibited : Chars := pstr "禁止"
/-- Marker "failed". -/
def sFailed : Chars := pstr "不合格"
/-- Judgment label "needs review". -/
def sNeedsReview : Chars := pstr "要確認"
/-- Judgment label "error". -/
def sError : Chars := pstr "エラー"
/-- Sentinel company name "unknown". -/
def sUnknown : Chars := pstr "不明"
/-- Issue category "parse error". -/
def sParseErrorCat : Chars := pstr "パースエラー"
/-- Fallback issue description (structured extraction failed, see raw text). -/
def sParseErrDesc : Chars := pstr "JSON形式での解析に失敗しました。以下の生テキストを確認してください。"
/-- Issue category "system error". -/
def sSystemErrorCat : Chars := pstr "システムエラー"
/-- Description head "API call error: ". -/
def sApiCallErr : Chars := pstr "API呼び出しエラー: "
/-- Notes "An API error occurred; retry recommended.". -/
def sApiErrNotes : Chars := pstr "APIエラーが発生しました。再試行してください。"

/-- The fence opener with json tag. -/
def fenceJson : Chars := pstr "```json"
/-- The generic fence. -/
def fenceMark : Chars := pstr "```"

/-! ### `OpenAICreativeChecker` (src/core/openai_checker.py) -/

/-- The JSON-candidate extraction of `_parse_response`
(src/core/openai_checker.py:175-187): take the interior of a
"```json"-tagged fence, else of a generic fence, else the whole text;
`str.find` returning `-1` on a missing closing fence flows into the slice
end unchanged. -/
def extractCandidate (content : Chars) : Chars :=
  if pyContains content fenceJson then
    let json_start := (pyFind content fenceJson 0).toNat + 7
    let json_end := pyFind content fenceMark json_start
    pyStrip (pySlice content json_start json_end)
  else if pyContains content fenceMark then
    let json_start := (pyFind content fenceMark 0).toNat + 3
    let json_end := pyFind content fenceMark json_start
    pyStrip (pySlice content json_start json_end)
  else
    pyStrip content

/-- The judgment inference of `_create_fallback_result`
(src/core/openai_checker.py:202-207): substring markers over the raw
text, "no problem" first, then "has problem" / "prohibited" / "failed",
else "needs review". -/
def fallbackJudgment (content : Chars) : Chars :=
  if pyContains content sNoProblem then sNoProblem
  else if pyContains content sHasProblem || pyContains content sProhibited
      || pyContains content sFailed then sHasProblem
  else sNeedsReview

/-- The all-default `detected_elements` object. -/
def defaultDetected : Json :=
  .obj [(kYear, .null), (kIssuer, .null), (kRanking, .null), (kPosition, .null),
    (kTrademark, .bool false)]

/-- `_create_fallback_result` (src/core/openai_checker.py:200-229). -/
def createFallbackResult (content file_name : Chars) : Json :=
  .obj [
    (kFileName, .str file_name),
    (kCompany, .str sUnknown),
    (kJudgment, .str (fallbackJudgment content)),
    (kIssues, .arr [
      .obj [(kSeverity, .str (pstr "info")), (kCategory, .str sParseErrorCat),
        (kDescription, .str sParseErrDesc)]]),
    (kDetected, defaultDetected),
    (kNotes, .str content),
    (kRaw, .str content)]

/-- `_parse_response` (src/core/openai_checker.py:165-198), parameterized
by the decoder `loads` standing for `json.loads` on the candidate
(`none` = `JSONDecodeError`, which the `except` clause turns into the
fallback record).  The `result["file_name"] = file_name` assignment is
`pySetItem`; its `TypeError` on a non-dict value is outside the `except`
and surfaces as `.error`. -/
def parseResponse (loads : Chars → Option Json) (content file_name : Chars) :
    Except Json Json :=
  match loads (extractCandidate content) with
  | some result => pySetItem result kFileName (.str file_name)
  | none => .ok (createFallbackResult content file_name)

/-- The display name built in `check_image`
(src/core/openai_checker.py:106): `f"{file_name} (ページ {page_num + 1})"`
when a page number is given, else the file name unchanged. -/
def displayName (file_name : Chars) (page_num : Option Nat) : Chars :=
  match page_num with
  | some n => file_name ++ pstr " (ページ " ++ pstr (toString (n + 1)) ++ pstr ")"
  | none => file_name

/-- The record built by the `except` clause of `check_image`
(src/core/openai_checker.py:143-163) for a raised exception with
`str(e) = err`. -/
def apiErrorRecord (display_name err : Chars) : Json :=
  .obj [
    (kFileName, .str display_name),
    (kCompany, .str sUnknown),
    (kJudgment, .str sError),
    (kIssues, .arr [
      .obj [(kSeverity, .str (pstr "critical")), (kCategory, .str sSystemErrorCat),
        (kDescription, .str (sApiCallErr ++ err))]]),
    (kDetected, defaultDetected),
    (kNotes, .str sApiErrNotes)]

/-- `check_image` (src/core/openai_checker.py:87-163).  `callResult` is
the outcome of the single remote-call collaborator invocation for this
payload (`.ok content` = model reply text, `.error e` = raised exception,
stringified).  The `try`/`except Exception` wraps both the call and the
parse, so a `TypeError` escaping `_parse_response` also lands in the
error record. -/
def checkImage (loads : Chars → Option Json) (callResult : Except Chars Chars)
    (file_name : Chars) (page_num : Option Nat) : Json :=
  let display_name := displayName file_name page_num
  match callResult with
  | .ok content =>
    match parseResponse loads content display_name with
    | .ok result => result
    | .error e => apiErrorRecord display_name (typeErrMsg e)
  | .error e => apiErrorRecord display_name e

/-- `check_multiple_images` (src/core/openai_checker.py:231-256): one
`check_image` per payload in order, with `page_num = i` when more than
one payload, else `None`.  `call i` is the collaborator outcome for the
`i`-th payload (the request embeds that payload and the display name;
indexing by position captures any such dependence). -/
def checkMultipleImages (loads : Chars → Option Json)
    (call : Nat → Except Chars Chars) (images : List (Chars × Chars))
    (file_name : Chars) : List Json :=
  (List.range images.length).map (fun i =>
    checkImage loads (call i) file_name
      (if images.length > 1 then some i else none))

/-! ### `FileProcessor` (src/core/file_processor.py) -/

/-- The two error exits of `process_uploaded_file` and
`_process_pdf_bytes`: `ValueError("Unsupported file type: ...")` and
`RuntimeError("PyMuPDF is not installed. ...")`. -/
inductive FPError where
  | unsupportedFileType : FPError
  | rasterizerUnavailable : FPError
deriving DecidableEq

/-- `SUPPORTED_IMAGE_EXTENSIONS` (src/core/file_processor.py:31). -/
def SUPPORTED_IMAGE_EXTENSIONS : List Chars :=
  [pstr ".png", pstr ".jpg", pstr ".jpeg", pstr ".gif", pstr ".webp", pstr ".bmp"]

/-- `SUPPORTED_DOC_EXTENSIONS` (src/core/file_processor.py:32). -/
def SUPPORTED_DOC_EXTENSIONS : List Chars := [pstr ".pdf"]

/-- The extension→MIME table of `_process_image_bytes`
(src/core/file_processor.py:108-115). -/
def media_type_map : List (Chars × Chars) :=
  [(pstr ".png", pstr "image/png"), (pstr ".jpg", pstr "image/jpeg"),
    (pstr ".jpeg", pstr "image/jpeg"), (pstr ".gif", pstr "image/gif"),
    (pstr ".webp", pstr "image/webp"), (pstr ".bmp", pstr "image/bmp")]

/-- `_process_image_bytes` (src/core/file_processor.py:105-121), with the
base64 encoder abstracted as `enc`: a single payload whose media type is
the table lookup with default `image/png`. -/
def processImageBytes {β : Type} (enc : β → Chars) (image_bytes : β) (ext : Chars) :
    List (Chars × Chars) :=
  [(enc image_bytes, (pyLookup ext media_type_map).getD (pstr "image/png"))]

/-- `_process_pdf_bytes` (src/core/file_processor.py:133-161): `pymupdf`
is `some rasterize` when PyMuPDF is importable (the rasterizer maps the
document bytes to its page images in page order), `none` otherwise; each
page is encoded and tagged `image/png`. -/
def processPdfBytes {β : Type} (enc : β → Chars) (pymupdf : Option (β → List β))
    (pdf_bytes : β) : Except FPError (List (Chars × Chars)) :=
  match pymupdf with
  | none => .error .rasterizerUnavailable
  | some rasterize =>
    .ok ((rasterize pdf_bytes).map (fun page => (enc page, pstr "image/png")))

/-- `process_uploaded_file` (src/core/file_processor.py:77-95): dispatch
on the lower-cased file-name suffix. -/
def processUploadedFile {β : Type} (enc : β → Chars) (pymupdf : Option (β → List β))
    (file_name : Chars) (file_bytes : β) : Except FPError (List (Chars × Chars)) :=
  let ext := pyLower (pathSuffix file_name)
  if ext ∈ SUPPORTED_IMAGE_EXTENSIONS then
    .ok (processImageBytes enc file_bytes ext)
  else if ext ∈ SUPPORTED_DOC_EXTENSIONS then
    processPdfBytes enc pymupdf file_bytes
  else
    .error .unsupportedFileType

/-! ### Record accessors of the UI layer (src/app.py) -/

/-- `result.get("detected_elements", {})` (src/app.py:195). -/
def appDetected (result : Json) : Json := pyGetD result kDetected (.obj [])

/-- `detected.get("year")` (src/app.py:201); `dict.get` defaults to `None`. -/
def appDetectedYear (detected : Json) : Json := pyGetD detected kYear .null

/-- `detected.get("trademark_symbol", False)` (src/app.py:214). -/
def appTrademark (detected : Json) : Json := pyGetD detected kTrademark (.bool false)

/-! ### Helper lemmas -/

/-- A Python slice with end `-1` keeps everything from `a` up to but
excluding the final character. -/
theorem pySlice_neg_one (s : Chars) (a : Nat) :
    pySlice s a (-1) = (s.take (s.length - 1)).drop a := by
  unfold pySlice pySliceEnd
  have hlt : ((-1 : Int) < 0) = True := by norm_num
  have h : ((-1 : Int) + (s.length : Int)).toNat = s.length - 1 := by omega
  simp only [hlt, if_true, h]

/-- Looking up a key after the in-place update of `pySetKey` when the key
was present. -/
theorem pyLookup_map_set (f : List (Chars × Json)) (k : Chars) (v : Json)
    (h : hasAnyKey k f = true) :
    pyLookup k (f.map (fun p => if p.1 = k then (k, v) else p)) = some v := by
  induction f with
  | nil => simp [hasAnyKey] at h
  | cons p rest ih =>
    by_cases hp : p.1 = k
    · simp [pyLookup, hp]
    · have h' : hasAnyKey k rest = true := by
        unfold hasAnyKey at h
        simpa [hp] using h
      simpa [pyLookup, hp] using ih h'

/-- The in-place update of `pySetKey` leaves other keys alone. -/
theorem pyLookup_map_set_ne (f : List (Chars × Json)) (k k' : Chars) (v : Json)
    (hne : k' ≠ k) :
    pyLookup k' (f.map (fun p => if p.1 = k then (k, v) else p)) = pyLookup k' f := by
  induction f with
  | nil => rfl
  | cons p rest ih =>
    by_cases hp : p.1 = k
    · have : k ≠ k' := fun h => hne h.symm
      simp [pyLookup, hp, this, ih]
    · by_cases hq : p.1 = k' <;> simp [pyLookup, hp, hq, hne, ih]

/-- Appending a binding for a fresh key does not disturb other keys. -/
theorem pyLookup_append_single_ne (f : List (Chars × Json)) (k k' : Chars) (v : Json)
    (hne : k' ≠ k) :
    pyLookup k' (f ++ [(k, v)]) = pyLookup k' f := by
  induction f with
  | nil =>
    have : k ≠ k' := fun h => hne h.symm
    simp [pyLookup, this]
  | cons p rest ih =>
    by_cases hp : p.1 = k' <;> simp [pyLookup, hp, ih]

/-- Appending a binding for a fresh key makes it readable. -/
theorem pyLookup_append_self (f : List (Chars × Json)) (k : Chars) (v : Json)
    (h : hasAnyKey k f = false) :
    pyLookup k (f ++ [(k, v)]) = some v := by
  induction f with
  | nil => simp [pyLookup]
  | cons p rest ih =>
    have hp : p.1 ≠ k := by
      intro hq
      simp [hasAnyKey, hq] at h
    have h' : hasAnyKey k rest = false := by
      unfold hasAnyKey at h
      simpa [hp] using h
    simpa [pyLookup, hp] using ih h'

/-- After `d[k] = v`, looking up `k` yields `v`. -/
theorem pyLookup_setKey_self (f : List (Chars × Json)) (k : Chars) (v : Json) :
    pyLookup k (pySetKey f k v) = some v := by
  unfold pySetKey
  by_cases h : hasAnyKey k f = true
  · simpa [h] using pyLookup_map_set f k v h
  · have hf : hasAnyKey k f = false := by simpa using h
    simpa [hf] using pyLookup_append_self f k v hf

/-- After `d[k] = v`, every other key reads as before. -/
theorem pyLookup_setKey_ne (f : List (Chars × Json)) (k k' : Chars) (v : Json)
    (hne : k' ≠ k) :
    pyLookup k' (pySetKey f k v) = pyLookup k' f := by
  unfold pySetKey
  by_cases h : hasAnyKey k f = true
  · simpa [h] using pyLookup_map_set_ne f k k' v hne
  · simpa [h] using pyLookup_append_single_ne f k k' v hne

/-- Every path of `check_image` stamps the display name into the record:
the error record carries it, the fallback record carries it, and the
structured path overwrites `file_name` with it. -/
theorem jGet_checkImage_fileName (loads : Chars → Option Json)
    (cres : Except Chars Chars) (fn : Chars) (pn : Option Nat) :
    jGet (checkImage loads cres fn pn) kFileName = some (.str (displayName fn pn)) := by
  unfold checkImage
  cases cres with
  | error e => simp [apiErrorRecord, jGet, pyLookup]
  | ok content =>
    simp only
    unfold parseResponse
    cases hl : loads (extractCandidate content) with
    | none => simp [createFallbackResult, jGet, pyLookup]
    | some j =>
      cases j with
      | obj fields =>
        simp only [pySetItem, jGet]
        exact pyLookup_setKey_self fields kFileName (.str (displayName fn pn))
      | null => simp [pySetItem, apiErrorRecord, jGet, pyLookup]
      | bool b => simp [pySetItem, apiErrorRecord, jGet, pyLookup]
      | num n => simp [pySetItem, apiErrorRecord, jGet, pyLookup]
      | str s => simp [pySetItem, apiErrorRecord, jGet, pyLookup]
      | arr xs => simp [pySetItem, apiErrorRecord, jGet, pyLookup]


/-! ### Claim C10 -/

/-- Claim C10 (confirmed): when the model text has a "```json" opener (or,
lacking it, a generic "```") with no closing fence after the opener, the
failed `find` yields `-1`, which becomes the slice end, so the extraction
candidate is the stripped substring from just past the opener up to but
excluding the final character of the text. -/
theorem c10_missing_close_fence (content : Chars) :
    (pyContains content fenceJson = true →
      pyFind content fenceMark ((pyFind content fenceJson 0).toNat + 7) = -1 →
      extractCandidate content =
        pyStrip ((content.take (content.length - 1)).drop
          ((pyFind content fenceJson 0).toNat + 7)))
    ∧ (pyContains content fenceJson = false →
      pyContains content fenceMark = true →
      pyFind content fenceMark ((pyFind content fenceMark 0).toNat + 3) = -1 →
      extractCandidate content =
        pyStrip ((content.take (content.length - 1)).drop
          ((pyFind content fenceMark 0).toNat + 3))) := by
  constructor
  · intro h1 h2
    simp only [extractCandidate, h1, if_true]
    rw [h2, pySlice_neg_one]
  · intro h1 h2 h3
    simp only [extractCandidate, h1, h2, if_true, Bool.false_eq_true, if_false]
    rw [h3, pySlice_neg_one]

/-- Witness for C10: concrete texts with an unclosed "```json" opener and
an unclosed generic fence. -/
theorem c10_missing_close_fence_witness :
    extractCandidate (pstr "```json ab") =
      pyStrip (((pstr "```json ab").take ((pstr "```json ab").length - 1)).drop
        ((pyFind (pstr "```json ab") fenceJson 0).toNat + 7))
    ∧ extractCandidate (pstr "```ab") =
      pyStrip (((pstr "```ab").take ((pstr "```ab").length - 1)).drop
        ((pyFind (pstr "```ab") fenceMark 0).toNat + 3)) :=
  ⟨(c10_missing_close_fence (pstr "```json ab")).1 (by decide) (by decide),
   (c10_missing_close_fence (pstr "```ab")).2 (by decide) (by decide) (by decide)⟩

/-! ### Claim C1 -/

/-- Models `json.loads` at the one input used below: `json.loads("5")`
succeeds in Python and yields the number `5`. -/
def loadsNum : Chars → Option Json :=
  fun s => if s = pstr "5" then some (.num 5) else none

/-- Models `json.loads` raising `JSONDecodeError` (e.g. on `"hello"`). -/
def loadsNone : Chars → Option Json := fun _ => none

/-- Models `json.loads` at the empty-object text: `json.loads("{}") = {}`. -/
def loadsEmptyObj : Chars → Option Json :=
  fun s => if s = pstr "\x7b\x7d" then some (.obj []) else none

/-- Claim C1 counterexample: for model text `"5"` (no fence, so the whole
trimmed text is the candidate, and `json.loads("5")` succeeds with the
number `5`), `_parse_response` does not return a record: the
`result["file_name"] = file_name` assignment raises a `TypeError`, which
the `except json.JSONDecodeError` clause does not catch, so the exception
propagates to the caller instead of being absorbed into the fallback
path. -/
theorem c1_counterexample :
    (parseResponse loadsNum (pstr "5") (pstr "a.png")).isOk = false
    ∧ parseResponse loadsNum (pstr "5") (pstr "a.png") = .error (.num 5) :=
  ⟨rfl, rfl⟩

/-- Claim C1 (amended): `_parse_response` absorbs every decode failure
(`json.JSONDecodeError`) into the fallback record and returns a record for
every candidate that decodes to a JSON object; but a candidate that
decodes to a non-object JSON value (number, list, string, boolean, null)
raises a `TypeError` that propagates to the caller — it is not absorbed
into the fallback path. -/
theorem c1_parse_exception_amended (loads : Chars → Option Json) (content fn : Chars) :
    (loads (extractCandidate content) = none →
      parseResponse loads content fn = .ok (createFallbackResult content fn))
    ∧ (∀ fields, loads (extractCandidate content) = some (.obj fields) →
        (parseResponse loads content fn).isOk = true)
    ∧ (∀ j, loads (extractCandidate content) = some j → (∀ fields, j ≠ .obj fields) →
        parseResponse loads content fn = .error j) := by
  refine ⟨fun h => ?_, fun fields h => ?_, fun j h hno => ?_⟩
  · simp [parseResponse, h]
  · simp [parseResponse, h, pySetItem, Except.isOk, Except.toBool]
  · cases j with
    | obj fields => exact absurd rfl (hno fields)
    | null => simp [parseResponse, h, pySetItem]
    | bool b => simp [parseResponse, h, pySetItem]
    | num n => simp [parseResponse, h, pySetItem]
    | str s => simp [parseResponse, h, pySetItem]
    | arr xs => simp [parseResponse, h, pySetItem]

/-- Witness for the amended C1: a failing decode falls back, an object
decode returns a record, and the number decode `json.loads("5")` raises. -/
theorem c1_parse_exception_witness :
    (parseResponse loadsNone (pstr "hello") (pstr "f.png")
      = .ok (createFallbackResult (pstr "hello") (pstr "f.png")))
    ∧ (parseResponse loadsEmptyObj (pstr "\x7b\x7d") (pstr "f.png")).isOk = true
    ∧ parseResponse loadsNum (pstr "5") (pstr "f.png") = .error (.num 5) :=
  ⟨(c1_parse_exception_amended loadsNone (pstr "hello") (pstr "f.png")).1 rfl,
   (c1_parse_exception_amended loadsEmptyObj (pstr "\x7b\x7d") (pstr "f.png")).2.1 [] rfl,
   (c1_parse_exception_amended loadsNum (pstr "5") (pstr "f.png")).2.2 (.num 5) rfl
     (fun _fields heq => Json.noConfusion heq)⟩

/-! ### Claim C3 -/

/-- Claim C3 (confirmed): on the fallback path the judgment is inferred by
literal substring search over the whole original unparsed model text with
this fixed precedence: "no problem" marker present → Clean label; else
"has problem", "prohibited" or "failed" marker present → Violation label;
else → NeedsReview label.  In particular a text containing both a "no
problem" and a "has problem" phrase yields the Clean label, and the
fallback judgment is never the Error label. -/
theorem c3_fallback_judgment_precedence (loads : Chars → Option Json)
    (content dn : Chars) (h : loads (extractCandidate content) = none) :
    parseResponse loads content dn = .ok (createFallbackResult content dn)
    ∧ jGet (createFallbackResult content dn) kJudgment
        = some (.str (fallbackJudgment content))
    ∧ (pyContains content sNoProblem = true → fallbackJudgment content = sNoProblem)
    ∧ (pyContains content sNoProblem = false →
        (pyContains content sHasProblem || pyContains content sProhibited
          || pyContains content sFailed) = true →
        fallbackJudgment content = sHasProblem)
    ∧ (pyContains content sNoProblem = false →
        (pyContains content sHasProblem || pyContains content sProhibited
          || pyContains content sFailed) = false →
        fallbackJudgment content = sNeedsReview)
    ∧ (pyContains content sNoProblem = true → pyContains content sHasProblem = true →
        fallbackJudgment content = sNoProblem)
    ∧ fallbackJudgment content ≠ sError := by
  refine ⟨by simp [parseResponse, h], rfl, ?_, ?_, ?_, ?_, ?_⟩
  · intro h1
    simp [fallbackJudgment, h1]
  · intro h1 h2
    simp [fallbackJudgment, h1, h2]
  · intro h1 h2
    simp [fallbackJudgment, h1, h2]
  · intro h1 _
    simp [fallbackJudgment, h1]
  · unfold fallbackJudgment
    split
    · decide
    · split
      · decide
      · decide

/-- Witness for C3: text carrying both the "no problem" and the "has
problem" markers (and no decodable JSON) falls back to the Clean label. -/
theorem c3_fallback_judgment_witness :
    parseResponse loadsNone (pstr "問題なしでも問題あり") (pstr "f.png")
      = .ok (createFallbackResult (pstr "問題なしでも問題あり") (pstr "f.png"))
    ∧ fallbackJudgment (pstr "問題なしでも問題あり") = sNoProblem :=
  ⟨(c3_fallback_judgment_precedence loadsNone (pstr "問題なしでも問題あり")
      (pstr "f.png") rfl).1,
   (c3_fallback_judgment_precedence loadsNone (pstr "問題なしでも問題あり")
      (pstr "f.png") rfl).2.2.2.2.2.1 (by decide) (by decide)⟩

/-! ### Claim C4 -/

/-- Claim C4 (confirmed): every fallback record contains exactly one
synthesized issue with severity `info` and the parse-error category, its
`notes` and `raw_response` both hold the full original model text
verbatim, its `company_name` is the unknown sentinel, and its
`detected_elements` is entirely default (`trademark_symbol = false`, all
four string fields null). -/
theorem c4_fallback_record_shape (loads : Chars → Option Json)
    (content dn : Chars) (h : loads (extractCandidate content) = none) :
    parseResponse loads content dn = .ok (createFallbackResult content dn)
    ∧ jGet (createFallbackResult content dn) kIssues
        = some (.arr [.obj [(kSeverity, .str (pstr "info")),
            (kCategory, .str sParseErrorCat), (kDescription, .str sParseErrDesc)]])
    ∧ jGet (createFallbackResult content dn) kNotes = some (.str content)
    ∧ jGet (createFallbackResult content dn) kRaw = some (.str content)
    ∧ jGet (createFallbackResult content dn) kCompany = some (.str sUnknown)
    ∧ jGet (createFallbackResult content dn) kDetected = some defaultDetected
    ∧ jGet defaultDetected kTrademark = some (.bool false)
    ∧ jGet defaultDetected kYear = some .null
    ∧ jGet defaultDetected kIssuer = some .null
    ∧ jGet defaultDetected kRanking = some .null
    ∧ jGet defaultDetected kPosition = some .null :=
  ⟨by simp [parseResponse, h], rfl, rfl, rfl, rfl, rfl, rfl, rfl, rfl, rfl, rfl⟩

/-- Witness for C4 at a concrete undecodable text. -/
theorem c4_fallback_record_witness :
    parseResponse loadsNone (pstr "raw text") (pstr "g.png")
      = .ok (createFallbackResult (pstr "raw text") (pstr "g.png"))
    ∧ jGet (createFallbackResult (pstr "raw text") (pstr "g.png")) kNotes
        = some (.str (pstr "raw text"))
    ∧ jGet (createFallbackResult (pstr "raw text") (pstr "g.png")) kRaw
        = some (.str (pstr "raw text")) :=
  ⟨(c4_fallback_record_shape loadsNone (pstr "raw text") (pstr "g.png") rfl).1,
   (c4_fallback_record_shape loadsNone (pstr "raw text") (pstr "g.png") rfl).2.2.1,
   (c4_fallback_record_shape loadsNone (pstr "raw text") (pstr "g.png") rfl).2.2.2.1⟩

/-! ### Claim C2 -/

/-- Claim C2 (confirmed): when the extracted candidate decodes to a
structured object, `_parse_response` returns exactly that object with
`file_name` overwritten by the caller-supplied display name; every other
decoded field is returned unchanged; absent optional sub-fields stay
unset and are read as their documented defaults by the repository's
accessors (`detected.get("trademark_symbol", False)` → `False`,
`detected.get("year")` → `None`). -/
theorem c2_structured_roundtrip (loads : Chars → Option Json)
    (content dn : Chars) (fields : List (Chars × Json))
    (h : loads (extractCandidate content) = some (.obj fields)) :
    parseResponse loads content dn = .ok (.obj (pySetKey fields kFileName (.str dn)))
    ∧ jGet (.obj (pySetKey fields kFileName (.str dn))) kFileName = some (.str dn)
    ∧ (∀ k, k ≠ kFileName →
        jGet (.obj (pySetKey fields kFileName (.str dn))) k = pyLookup k fields)
    ∧ (jGet (appDetected (.obj (pySetKey fields kFileName (.str dn)))) kTrademark = none →
        appTrademark (appDetected (.obj (pySetKey fields kFileName (.str dn))))
          = .bool false)
    ∧ (jGet (appDetected (.obj (pySetKey fields kFileName (.str dn)))) kYear = none →
        appDetectedYear (appDetected (.obj (pySetKey fields kFileName (.str dn))))
          = .null) := by
  refine ⟨?_, ?_, ?_, ?_, ?_⟩
  · simp [parseResponse, h, pySetItem]
  · exact pyLookup_setKey_self fields kFileName (.str dn)
  · intro k hk
    exact pyLookup_setKey_ne fields kFileName k (.str dn) hk
  · intro hnone
    simp [appTrademark, pyGetD, hnone]
  · intro hnone
    simp [appDetectedYear, pyGetD, hnone]

/-- Fenced model text whose interior decodes to
`{"company_name": "ACME", "judgment": "問題なし"}`. -/
def c2text : Chars :=
  pstr "```json\n\x7b\"company_name\": \"ACME\", \"judgment\": \"問題なし\"\x7d\n```"

/-- Models `json.loads` at the candidate extracted from `c2text`. -/
def loadsAcme : Chars → Option Json :=
  fun s =>
    if s = pstr "\x7b\"company_name\": \"ACME\", \"judgment\": \"問題なし\"\x7d" then
      some (.obj [(kCompany, .str (pstr "ACME")), (kJudgment, .str sNoProblem)])
    else none

/-- Witness for C2: a fenced "json" block round-trips with only
`file_name` overwritten, other fields unchanged, and absent sub-fields
reading as their defaults. -/
theorem c2_structured_roundtrip_witness :
    parseResponse loadsAcme c2text (pstr "d.png")
      = .ok (.obj (pySetKey [(kCompany, .str (pstr "ACME")), (kJudgment, .str sNoProblem)]
          kFileName (.str (pstr "d.png"))))
    ∧ jGet (.obj (pySetKey [(kCompany, .str (pstr "ACME")), (kJudgment, .str sNoProblem)]
          kFileName (.str (pstr "d.png")))) kFileName = some (.str (pstr "d.png"))
    ∧ jGet (.obj (pySetKey [(kCompany, .str (pstr "ACME")), (kJudgment, .str sNoProblem)]
          kFileName (.str (pstr "d.png")))) kJudgment
        = pyLookup kJudgment [(kCompany, Json.str (pstr "ACME")), (kJudgment, Json.str sNoProblem)]
    ∧ appTrademark (appDetected (.obj (pySetKey
          [(kCompany, .str (pstr "ACME")), (kJudgment, .str sNoProblem)]
          kFileName (.str (pstr "d.png"))))) = .bool false :=
  ⟨(c2_structured_roundtrip loadsAcme c2text (pstr "d.png") _ rfl).1,
   (c2_structured_roundtrip loadsAcme c2text (pstr "d.png") _ rfl).2.1,
   (c2_structured_roundtrip loadsAcme c2text (pstr "d.png") _ rfl).2.2.1 kJudgment
     (by decide),
   (c2_structured_roundtrip loadsAcme c2text (pstr "d.png") _ rfl).2.2.2.1 rfl⟩

/-! ### Claim C5 -/

/-- Model text that is itself a JSON object carrying a `raw_response`
key. -/
def c5text : Chars := pstr "\x7b\"raw_response\": \"x\"\x7d"

/-- Models `json.loads` at `c5text`: yields the object
`{"raw_response": "x"}`. -/
def loadsRawEcho : Chars → Option Json :=
  fun s => if s = c5text then some (.obj [(kRaw, .str (pstr "x"))]) else none

/-- Claim C5 counterexample: a payload that itself contains a
`raw_response` field flows through the structured-parse path verbatim, so
the returned record has `raw_response` although the parser did not take
the fallback path (witnessed by the record lacking `company_name`, which
every fallback record carries). -/
theorem c5_counterexample :
    parseResponse loadsRawEcho c5text (pstr "f.png")
      = .ok (.obj [(kRaw, .str (pstr "x")), (kFileName, .str (pstr "f.png"))])
    ∧ hasKey (.obj [(kRaw, .str (pstr "x")), (kFileName, .str (pstr "f.png"))]) kRaw = true
    ∧ hasKey (createFallbackResult c5text (pstr "f.png")) kCompany = true
    ∧ hasKey (.obj [(kRaw, .str (pstr "x")), (kFileName, .str (pstr "f.png"))]) kCompany
        = false :=
  ⟨rfl, rfl, rfl, rfl⟩

/-- Claim C5 (amended): `raw_response` is present on every fallback-path
record and absent from every remote-call-error record; on the
structured-parse path the field is passed through verbatim, so it is
present iff the decoded payload itself contained a `raw_response` key —
presence of `raw_response` therefore does not imply the fallback path. -/
theorem c5_raw_response_amended (loads : Chars → Option Json)
    (content dn e : Chars) (fields : List (Chars × Json)) :
    hasKey (createFallbackResult content dn) kRaw = true
    ∧ hasKey (apiErrorRecord dn e) kRaw = false
    ∧ (loads (extractCandidate content) = some (.obj fields) →
        parseResponse loads content dn
          = .ok (.obj (pySetKey fields kFileName (.str dn)))
        ∧ hasKey (.obj (pySetKey fields kFileName (.str dn))) kRaw
            = (pyLookup kRaw fields).isSome) := by
  refine ⟨rfl, rfl, fun h => ⟨by simp [parseResponse, h, pySetItem], ?_⟩⟩
  show (pyLookup kRaw (pySetKey fields kFileName (.str dn))).isSome
    = (pyLookup kRaw fields).isSome
  rw [pyLookup_setKey_ne fields kFileName kRaw (.str dn) (by decide)]

/-- Witness for the amended C5 at concrete inputs on all three paths. -/
theorem c5_raw_response_witness :
    hasKey (createFallbackResult c5text (pstr "f.png")) kRaw = true
    ∧ hasKey (apiErrorRecord (pstr "f.png") (pstr "boom")) kRaw = false
    ∧ (parseResponse loadsRawEcho c5text (pstr "f.png")
        = .ok (.obj (pySetKey [(kRaw, .str (pstr "x"))] kFileName (.str (pstr "f.png"))))
      ∧ hasKey (.obj (pySetKey [(kRaw, .str (pstr "x"))] kFileName (.str (pstr "f.png"))))
          kRaw = (pyLookup kRaw [(kRaw, Json.str (pstr "x"))]).isSome) :=
  ⟨(c5_raw_response_amended loadsRawEcho c5text (pstr "f.png") (pstr "boom") []).1,
   (c5_raw_response_amended loadsRawEcho c5text (pstr "f.png") (pstr "boom") []).2.1,
   (c5_raw_response_amended loadsRawEcho c5text (pstr "f.png") (pstr "boom")
     [(kRaw, .str (pstr "x"))]).2.2 rfl⟩

/-! ### Claim C6 -/

/-- Model text that is a JSON object with an unrecognized judgment
label. -/
def c6text : Chars := pstr "\x7b\"judgment\": \"banana\"\x7d"

/-- Models `json.loads` at `c6text`: yields `{"judgment": "banana"}`. -/
def loadsOddJudgment : Chars → Option Json :=
  fun s => if s = c6text then some (.obj [(kJudgment, .str (pstr "banana"))]) else none

/-- Claim C6 counterexample: a decoded payload with judgment label
"banana" is returned verbatim by the structured path — the unrecognized
label does not collapse to the NeedsReview label and lies outside the
four-value enum. -/
theorem c6_counterexample :
    parseResponse loadsOddJudgment c6text (pstr "f.png")
      = .ok (.obj [(kJudgment, .str (pstr "banana")), (kFileName, .str (pstr "f.png"))])
    ∧ jGet (.obj [(kJudgment, .str (pstr "banana")), (kFileName, .str (pstr "f.png"))])
        kJudgment = some (.str (pstr "banana"))
    ∧ pstr "banana" ≠ sNoProblem
    ∧ pstr "banana" ≠ sHasProblem
    ∧ pstr "banana" ≠ sNeedsReview
    ∧ pstr "banana" ≠ sError :=
  ⟨rfl, rfl, by decide, by decide, by decide, by decide⟩

/-- Claim C6 (amended): records synthesized by the fallback path and the
remote-call-error path always carry a judgment drawn from the enum (the
fallback path one of the Clean/Violation/NeedsReview labels, the error
path the Error label); but a structured-path record carries the decoded
payload's judgment verbatim — an unrecognized or absent label is not
normalized to NeedsReview anywhere in the checker. -/
theorem c6_judgment_enum_amended (loads : Chars → Option Json)
    (content dn e : Chars) (fields : List (Chars × Json)) :
    jGet (createFallbackResult content dn) kJudgment
      = some (.str (fallbackJudgment content))
    ∧ (fallbackJudgment content = sNoProblem ∨ fallbackJudgment content = sHasProblem
        ∨ fallbackJudgment content = sNeedsReview)
    ∧ jGet (apiErrorRecord dn e) kJudgment = some (.str sError)
    ∧ (loads (extractCandidate content) = some (.obj fields) →
        parseResponse loads content dn
          = .ok (.obj (pySetKey fields kFileName (.str dn)))
        ∧ jGet (.obj (pySetKey fields kFileName (.str dn))) kJudgment
            = pyLookup kJudgment fields) := by
  refine ⟨rfl, ?_, rfl, fun h => ⟨by simp [parseResponse, h, pySetItem], ?_⟩⟩
  · unfold fallbackJudgment
    split
    · exact Or.inl rfl
    · split
      · exact Or.inr (Or.inl rfl)
      · exact Or.inr (Or.inr rfl)
  · show pyLookup kJudgment (pySetKey fields kFileName (.str dn))
      = pyLookup kJudgment fields
    exact pyLookup_setKey_ne fields kFileName kJudgment (.str dn) (by decide)

/-- Witness for the amended C6 at concrete inputs. -/
theorem c6_judgment_enum_witness :
    jGet (createFallbackResult c6text (pstr "f.png")) kJudgment
      = some (.str (fallbackJudgment c6text))
    ∧ jGet (apiErrorRecord (pstr "f.png") (pstr "boom")) kJudgment
        = some (.str sError)
    ∧ (parseResponse loadsOddJudgment c6text (pstr "f.png")
        = .ok (.obj (pySetKey [(kJudgment, .str (pstr "banana"))] kFileName
            (.str (pstr "f.png"))))
      ∧ jGet (.obj (pySetKey [(kJudgment, .str (pstr "banana"))] kFileName
            (.str (pstr "f.png")))) kJudgment
          = pyLookup kJudgment [(kJudgment, Json.str (pstr "banana"))]) :=
  ⟨(c6_judgment_enum_amended loadsOddJudgment c6text (pstr "f.png") (pstr "boom") []).1,
   (c6_judgment_enum_amended loadsOddJudgment c6text (pstr "f.png") (pstr "boom") []).2.2.1,
   (c6_judgment_enum_amended loadsOddJudgment c6text (pstr "f.png") (pstr "boom")
     [(kJudgment, .str (pstr "banana"))]).2.2.2 rfl⟩

/-! ### Claim C7 -/

/-- Claim C7 (confirmed): `check_multiple_images` produces exactly one
record per payload in payload order; the record for payload `i` depends
only on that payload's collaborator outcome `call i`; when the
collaborator raises, the record is synthesized directly (bypassing the
parser) with the Error judgment, the unknown company sentinel, a single
critical system-error issue whose description embeds the stringified
cause, fully-default detected elements, and the retry-recommended note —
and every other payload's record is left as its own `check_image` result,
with processing continuing. -/
theorem c7_per_payload_error_isolation (loads : Chars → Option Json)
    (call : Nat → Except Chars Chars) (images : List (Chars × Chars))
    (file_name : Chars) :
    (checkMultipleImages loads call images file_name).length = images.length
    ∧ (∀ i, i < images.length →
        (checkMultipleImages loads call images file_name)[i]? =
          some (checkImage loads (call i) file_name
            (if images.length > 1 then some i else none)))
    ∧ (∀ i e, i < images.length → call i = .error e →
        (checkMultipleImages loads call images file_name)[i]? =
          some (apiErrorRecord
            (displayName file_name (if images.length > 1 then some i else none)) e))
    ∧ (∀ dn e,
        jGet (apiErrorRecord dn e) kJudgment = some (.str sError)
        ∧ jGet (apiErrorRecord dn e) kCompany = some (.str sUnknown)
        ∧ jGet (apiErrorRecord dn e) kIssues = some (.arr [.obj
            [(kSeverity, .str (pstr "critical")), (kCategory, .str sSystemErrorCat),
              (kDescription, .str (sApiCallErr ++ e))]])
        ∧ jGet (apiErrorRecord dn e) kDetected = some defaultDetected
        ∧ jGet (apiErrorRecord dn e) kNotes = some (.str sApiErrNotes)) := by
  have hpt : ∀ i, i < images.length →
      (checkMultipleImages loads call images file_name)[i]? =
        some (checkImage loads (call i) file_name
          (if images.length > 1 then some i else none)) := by
    intro i hi
    simp [checkMultipleImages, hi]
  refine ⟨by simp [checkMultipleImages], hpt, ?_, fun dn e => ⟨rfl, rfl, rfl, rfl, rfl⟩⟩
  intro i e hi hc
  rw [hpt i hi, hc]
  rfl

/-- Collaborator outcomes for the C7 witness: payload 1 of 3 raises. -/
def callW : Nat → Except Chars Chars :=
  fun i => if i = 1 then .error (pstr "boom") else .ok (pstr "問題なし")

/-- Three image payloads for the C7 witness. -/
def imagesW : List (Chars × Chars) :=
  [(pstr "AA", pstr "image/png"), (pstr "BB", pstr "image/png"),
    (pstr "CC", pstr "image/png")]

/-- Witness for C7: with 3 payloads and the collaborator raising on
payload 2 of 3 (index 1), three records are produced, record 2 is the
synthesized error record, and records 1 and 3 are the ordinary
`check_image` results of their own calls. -/
theorem c7_per_payload_error_witness :
    (checkMultipleImages loadsNone callW imagesW (pstr "doc.pdf")).length
        = imagesW.length
    ∧ (checkMultipleImages loadsNone callW imagesW (pstr "doc.pdf"))[1]? =
        some (apiErrorRecord
          (displayName (pstr "doc.pdf") (if imagesW.length > 1 then some 1 else none))
          (pstr "boom"))
    ∧ (checkMultipleImages loadsNone callW imagesW (pstr "doc.pdf"))[0]? =
        some (checkImage loadsNone (callW 0) (pstr "doc.pdf")
          (if imagesW.length > 1 then some 0 else none))
    ∧ (checkMultipleImages loadsNone callW imagesW (pstr "doc.pdf"))[2]? =
        some (checkImage loadsNone (callW 2) (pstr "doc.pdf")
          (if imagesW.length > 1 then some 2 else none)) :=
  ⟨(c7_per_payload_error_isolation loadsNone callW imagesW (pstr "doc.pdf")).1,
   (c7_per_payload_error_isolation loadsNone callW imagesW (pstr "doc.pdf")).2.2.1
     1 (pstr "boom") (by decide) rfl,
   (c7_per_payload_error_isolation loadsNone callW imagesW (pstr "doc.pdf")).2.1
     0 (by decide),
   (c7_per_payload_error_isolation loadsNone callW imagesW (pstr "doc.pdf")).2.1
     2 (by decide)⟩

/-! ### Claim C9 -/

/-- Claim C9 (confirmed): every record produced by `check_multiple_images`
carries the display name in its `file_name` field; for a single payload
the display name is the original file name unchanged (no page suffix),
and for more than one payload the record at 0-based position `i` carries
the original name with the 1-based page suffix " (ページ (i+1))" — the
deployment-language realization of the "(page N)" indicator. -/
theorem c9_display_name_page_suffix (loads : Chars → Option Json)
    (call : Nat → Except Chars Chars) (images : List (Chars × Chars))
    (file_name : Chars) :
    (images.length = 1 → ∀ r,
        (checkMultipleImages loads call images file_name)[0]? = some r →
        jGet r kFileName = some (.str file_name))
    ∧ (1 < images.length → ∀ i r, i < images.length →
        (checkMultipleImages loads call images file_name)[i]? = some r →
        jGet r kFileName = some (.str (file_name ++ pstr " (ページ "
          ++ pstr (toString (i + 1)) ++ pstr ")"))) := by
  have hpt : ∀ i, i < images.length →
      (checkMultipleImages loads call images file_name)[i]? =
        some (checkImage loads (call i) file_name
          (if images.length > 1 then some i else none)) := by
    intro i hi
    simp [checkMultipleImages, hi]
  constructor
  · intro h1 r hr
    rw [hpt 0 (by omega)] at hr
    have hif : (if images.length > 1 then some 0 else none) = (none : Option Nat) := by
      simp [h1]
    rw [hif] at hr
    cases hr
    exact jGet_checkImage_fileName loads (call 0) file_name none
  · intro h1 i r hi hr
    rw [hpt i hi] at hr
    have hif : (if images.length > 1 then some i else none) = some i := by
      simp [h1]
    rw [hif] at hr
    cases hr
    exact jGet_checkImage_fileName loads (call i) file_name (some i)

/-- A single image payload for the C9 witness. -/
def imageOneW : List (Chars × Chars) := [(pstr "AA", pstr "image/png")]

/-- Witness for C9: a 3-payload document gets " (ページ 2)" appended for
the middle record, and a single-payload image keeps its name unchanged. -/
theorem c9_display_name_witness :
    jGet (checkImage loadsNone (callW 1) (pstr "doc.pdf")
        (if imagesW.length > 1 then some 1 else none)) kFileName
      = some (.str (pstr "doc.pdf" ++ pstr " (ページ " ++ pstr (toString (1 + 1))
        ++ pstr ")"))
    ∧ jGet (checkImage loadsNone (callW 0) (pstr "photo.png")
        (if imageOneW.length > 1 then some 0 else none)) kFileName
      = some (.str (pstr "photo.png")) := by
  constructor
  · have h := (c9_display_name_page_suffix loadsNone callW imagesW (pstr "doc.pdf")).2
      (by decide) 1
      (checkImage loadsNone (callW 1) (pstr "doc.pdf")
        (if imagesW.length > 1 then some 1 else none))
      (by decide) (by simp [checkMultipleImages]; exact ⟨1, by decide, rfl⟩)
    exact h
  · have h := (c9_display_name_page_suffix loadsNone callW imageOneW
      (pstr "photo.png")).1 (by decide)
      (checkImage loadsNone (callW 0) (pstr "photo.png")
        (if imageOneW.length > 1 then some 0 else none))
      (by simp [checkMultipleImages]; exact ⟨0, by decide, rfl⟩)
    exact h

/-! ### Claim C8 -/

/-- Claim C8 (confirmed): the Normalizer dispatches on the lower-cased
file extension: an accepted image extension yields exactly one payload
whose media type comes from the fixed extension→MIME table (with default
`image/png`); the pdf extension yields one payload per page in page
order, each tagged `image/png`, or the rasterizer-unavailable failure
when PyMuPDF is absent; any other extension fails with the
unsupported-file-type error. -/
theorem c8_extension_dispatch {β : Type} (enc : β → Chars)
    (pymupdf : Option (β → List β)) (file_name : Chars) (file_bytes : β) :
    (pyLower (pathSuffix file_name) ∈ SUPPORTED_IMAGE_EXTENSIONS →
      processUploadedFile enc pymupdf file_name file_bytes =
        .ok [(enc file_bytes,
          (pyLookup (pyLower (pathSuffix file_name)) media_type_map).getD
            (pstr "image/png"))])
    ∧ (pyLookup (pstr ".png") media_type_map = some (pstr "image/png")
        ∧ pyLookup (pstr ".jpg") media_type_map = some (pstr "image/jpeg")
        ∧ pyLookup (pstr ".jpeg") media_type_map = some (pstr "image/jpeg")
        ∧ pyLookup (pstr ".gif") media_type_map = some (pstr "image/gif")
        ∧ pyLookup (pstr ".webp") media_type_map = some (pstr "image/webp")
        ∧ pyLookup (pstr ".bmp") media_type_map = some (pstr "image/bmp"))
    ∧ (pyLower (pathSuffix file_name) = pstr ".pdf" →
        (pymupdf = none →
          processUploadedFile enc pymupdf file_name file_bytes =
            .error .rasterizerUnavailable)
        ∧ (∀ rasterize, pymupdf = some rasterize →
          processUploadedFile enc pymupdf file_name file_bytes =
            .ok ((rasterize file_bytes).map (fun page => (enc page, pstr "image/png")))))
    ∧ (pyLower (pathSuffix file_name) ∉ SUPPORTED_IMAGE_EXTENSIONS →
        pyLower (pathSuffix file_name) ∉ SUPPORTED_DOC_EXTENSIONS →
        processUploadedFile enc pymupdf file_name file_bytes =
          .error .unsupportedFileType) := by
  refine ⟨?_, ⟨rfl, rfl, rfl, rfl, rfl, rfl⟩, ?_, ?_⟩
  · intro h
    simp [processUploadedFile, h, processImageBytes]
  · intro h
    have hni : pyLower (pathSuffix file_name) ∉ SUPPORTED_IMAGE_EXTENSIONS := by
      rw [h]
      decide
    have hd : pyLower (pathSuffix file_name) ∈ SUPPORTED_DOC_EXTENSIONS := by
      rw [h]
      decide
    constructor
    · intro hp
      simp [processUploadedFile, hni, hd, processPdfBytes, hp]
    · intro rasterize hp
      simp [processUploadedFile, hni, hd, processPdfBytes, hp]
  · intro h1 h2
    simp [processUploadedFile, h1, h2]

/-- A 3-page rasterizer stand-in for the C8 witness. -/
def rastW : Chars → List Chars := fun _ => [pstr "P1", pstr "P2", pstr "P3"]

/-- Witness for C8 at concrete inputs: an upper-case image extension, a
PDF with and without the rasterizer, and an unsupported extension. -/
theorem c8_extension_dispatch_witness :
    processUploadedFile (fun b : Chars => b) none (pstr "photo.PNG") (pstr "AA")
      = .ok [(pstr "AA", pstr "image/png")]
    ∧ processUploadedFile (fun b : Chars => b) none (pstr "doc.pdf") (pstr "PD")
      = .error .rasterizerUnavailable
    ∧ processUploadedFile (fun b : Chars => b) (some rastW) (pstr "doc.pdf") (pstr "PD")
      = .ok [(pstr "P1", pstr "image/png"), (pstr "P2", pstr "image/png"),
          (pstr "P3", pstr "image/png")]
    ∧ processUploadedFile (fun b : Chars => b) none (pstr "notes.txt") (pstr "TT")
      = .error .unsupportedFileType :=
  ⟨(c8_extension_dispatch (fun b : Chars => b) none (pstr "photo.PNG")
      (pstr "AA")).1 (by decide),
   ((c8_extension_dispatch (fun b : Chars => b) none (pstr "doc.pdf")
      (pstr "PD")).2.2.1 (by decide)).1 rfl,
   ((c8_extension_dispatch (fun b : Chars => b) (some rastW) (pstr "doc.pdf")
      (pstr "PD")).2.2.1 (by decide)).2 rastW rfl,
   (c8_extension_dispatch (fun b : Chars => b) none (pstr "notes.txt")
      (pstr "TT")).2.2.2 (by decide) (by decide)⟩
